import Mathlib

/-!
Verification of `central_lock.py`: a redis-backed mutual-exclusion lock with a
non-blocking scoped acquirer (`central_lock`, lines 44-65) and a blocking one
(`central_lock_block`, lines 68-92).

The store is modelled as a map from keys to optional entries (value plus
optional armed TTL).  The redis client primitives used by the source are
`setnx` (atomic set-if-absent), `expire` (arm a TTL; the server may refuse,
modelled by an oracle of booleans, one per call) and `delete`.  This call is
the only writer of the store (the single-client view the tested scenarios
use).

Both Python functions are `@contextmanager` generators.  We embed each as an
"enter" phase that runs the body up to its first `yield` and records the
suspension point, plus explicit teardown functions for the two exit paths of
the `with` statement: normal completion (the context manager resumes the
generator with `next`) and an exception in the protected body (the context
manager throws the exception into the generator at the yield).  The `finally`
block of the source (delete iff `get_lock`) runs in both teardowns.  If the
generator yields a second time on the normal-exit resume, `contextlib` raises
`RuntimeError ("generator didn't stop")` and the `finally` block runs when the
generator is finalized; the teardown records that with `didNotStop` and still
accounts the delete the finalization performs.
-/

abbrev Key := String

/-- An entry stored at a key: the value written by `setnx` and, once `expire`
has been honoured, the armed TTL in seconds. -/
structure Entry where
  val : Nat
  ttl : Option Nat
deriving Repr, DecidableEq

/-- The shared keyspace: each key is absent or holds an entry. -/
def Store := Key → Option Entry

/-- Pointwise update of the store at one key. -/
def setKey (s : Store) (k : Key) (e : Option Entry) : Store :=
  fun k2 => if k2 = k then e else s k2

/-- The empty keyspace. -/
def emptyStore : Store := fun _ => none

/-- Python truthiness of the `timeout` argument: `None` and `0` are falsy
(`if timeout:` on lines 49 and 74), a positive lease is truthy. -/
def truthy : Option Nat → Bool
  | none => false
  | some 0 => false
  | some (_ + 1) => true

/-- The requested TTL in the truthy case. -/
def ttlOf : Option Nat → Nat
  | none => 0
  | some t => t

/-- `redis_client.setnx(key, value)`: atomically set the key if absent; returns
whether the set happened and the resulting store. -/
def setnx (s : Store) (k : Key) (v : Nat) : Bool × Store :=
  match s k with
  | some _ => (false, s)
  | none => (true, setKey s k (some ⟨v, none⟩))

/-- `redis_client.expire(key, t)`: arms a TTL on an existing key.  `honored`
is the oracle bit saying whether the server honours this particular call (the
partial-failure mode the retry budget exists for); the call returns `true`
iff the key exists and the server honoured the request. -/
def expireOp (honored : Bool) (s : Store) (k : Key) (t : Nat) : Bool × Store :=
  match s k with
  | none => (false, s)
  | some e => if honored then (true, setKey s k (some ⟨e.val, some t⟩)) else (false, s)

/-- `redis_client.delete(key)`: unconditional, idempotent removal. -/
def deleteOp (s : Store) (k : Key) : Store := setKey s k none

/-- Result of the `while retry_cnt:` lease-arming loop (lines 50-53 and
75-78): the store after the attempts, the value of the mutable `retry_cnt`
local when the loop is left (`0` exactly when the budget was exhausted
without a success, since a success breaks before the decrement), and the
number of `expire` calls made. -/
structure ArmOut where
  store : Store
  remaining : Nat
  calls : Nat

/-- The lease-arming loop, lines 50-53 / 75-78: while `retry_cnt` is nonzero,
call `expire`; break on success, otherwise decrement and retry immediately.
`i` indexes into the oracle of expire responses (one bit per call). -/
def armLoop (honored : Nat → Bool) (k : Key) (t : Nat) :
    Store → Nat → Nat → ArmOut
  | s, _, 0 => ⟨s, 0, 0⟩
  | s, i, n + 1 =>
    let r := expireOp (honored i) s k t
    if r.1 then ⟨r.2, n + 1, 1⟩
    else
      let rest := armLoop honored k t r.2 (i + 1) n
      ⟨rest.store, rest.remaining, rest.calls + 1⟩

/-- Suspension points of the `central_lock` generator: where it sits when the
`with` body runs. -/
inductive Susp
  /-- Line 59 `yield True`, reached with `get_lock = True` (line 58). -/
  | yieldTrue
  /-- Line 57 `yield False` in the exhausted-retry branch, reached with
  `get_lock` still `False`; on resume control falls through to lines 58-59. -/
  | yieldFalseExhausted
  /-- Line 61 `yield False` in the contention branch. -/
  | yieldFalseContended
deriving Repr, DecidableEq

/-- The first value a suspension point yields to the `with` statement. -/
def Susp.yieldVal : Susp → Bool
  | .yieldTrue => true
  | .yieldFalseExhausted => false
  | .yieldFalseContended => false

/-- Outcome of running `central_lock` up to its first `yield`. -/
structure Enter where
  susp : Susp
  /-- Store when the protected body starts. -/
  store : Store
  /-- The value argument of the single `setnx` call (line 48). -/
  claimValue : Nat
  /-- Number of `expire` calls made before the first yield. -/
  expireCalls : Nat
  /-- Number of `delete` calls made before the first yield (line 56). -/
  preDeletes : Nat

/-- The value the `with` statement binds: the generator's first yield. -/
def Enter.yielded (e : Enter) : Bool := e.susp.yieldVal

/-- Lines 44-61 of `central_lock`, from the call to the first `yield`.
`honored` is the oracle of expire responses.  Mirrors the source:
line 48 `setnx(key, 1)`; line 49 `if timeout:`; lines 50-53 the arming loop;
lines 55-57 exhausted budget: delete the claim and yield `False`;
lines 58-59 claim held: yield `True`; line 61 contention: yield `False`. -/
def central_lock (s : Store) (k : Key) (timeout : Option Nat) (retry_cnt : Nat)
    (honored : Nat → Bool) : Enter :=
  let claim := setnx s k 1
  if claim.1 then
    if truthy timeout then
      let a := armLoop honored k (ttlOf timeout) claim.2 0 retry_cnt
      if a.remaining = 0 then
        ⟨.yieldFalseExhausted, deleteOp a.store k, 1, a.calls, 1⟩
      else
        ⟨.yieldTrue, a.store, 1, a.calls, 0⟩
    else
      ⟨.yieldTrue, claim.2, 1, 0, 0⟩
  else
    ⟨.yieldFalseContended, s, 1, 0, 0⟩

/-- Observable outcome of tearing the scope down. -/
structure ExitOut where
  store : Store
  /-- Number of `delete` calls issued during teardown. -/
  exitDeletes : Nat
  /-- Value of `get_lock` when the `finally` block (lines 63-65) runs. -/
  heldAtFinally : Bool
  /-- Whether the generator yielded a second time on the normal-exit resume,
  making `contextlib` raise `RuntimeError ("generator didn't stop")`. -/
  didNotStop : Bool

/-- Normal exit of the `with` body: the context manager resumes the generator.
From line 59 the generator falls into the `finally` with `get_lock = True` and
deletes the key.  From line 57 it falls through to line 58 (`get_lock = True`)
and line 59 (`yield True`) — a second yield, so `contextlib` raises
`RuntimeError`; when the generator is finalized the `finally` runs with
`get_lock = True` and deletes the key again.  From line 61 the `finally` runs
with `get_lock = False` and nothing is deleted. -/
def central_lock_exit_normal (k : Key) (e : Enter) : ExitOut :=
  match e.susp with
  | .yieldTrue => ⟨deleteOp e.store k, 1, true, false⟩
  | .yieldFalseExhausted => ⟨deleteOp e.store k, 1, true, true⟩
  | .yieldFalseContended => ⟨e.store, 0, false, false⟩

/-- Exceptional exit of the `with` body: the context manager throws the
exception into the generator at the suspension point; the `finally` runs with
the current `get_lock` and the exception propagates.  At line 59 `get_lock`
is `True` (delete); at lines 57 and 61 it is still `False` (no delete). -/
def central_lock_exit_exn (k : Key) (e : Enter) : ExitOut :=
  match e.susp with
  | .yieldTrue => ⟨deleteOp e.store k, 1, true, false⟩
  | .yieldFalseExhausted => ⟨e.store, 0, false, false⟩
  | .yieldFalseContended => ⟨e.store, 0, false, false⟩

/-- Loop state of `central_lock_block`: the Python locals that survive an
outer-loop iteration.  `retry_cnt` is the function argument, mutated in place
by the arming loop and never reset (lines 75-78).  `armIdx` counts the expire
responses consumed so far, `sleptFor` the accumulated `time.sleep` seconds
(line 87), `claimValues` the value arguments of the `setnx` calls so far
(line 73). -/
structure BState where
  store : Store
  retry_cnt : Nat
  armIdx : Nat
  sleptFor : Nat
  claimValues : List Nat

/-- What one outer-loop iteration (lines 72-88) does: either reach line 84
`yield True` (with `get_lock = True` from line 83), or `continue` into the
next iteration. -/
inductive BStep
  | yielded (st : BState)
  | again (st : BState)

/-- The loop state a step carries. -/
def BStep.st : BStep → BState
  | .yielded st => st
  | .again st => st

/-- One iteration of the `while True:` loop of `central_lock_block`
(lines 72-88).  Line 73 `setnx(key, 1)`; line 74 `if timeout:`; lines 75-78
the arming loop, mutating `retry_cnt`; lines 80-82 exhausted budget: delete
the claim and `continue`; lines 83-85 claim held: `yield True` then `break`;
lines 86-88 contention: `sleep(interval)` and `continue`. -/
def central_lock_block_iter (k : Key) (timeout : Option Nat) (interval : Nat)
    (honored : Nat → Bool) (st : BState) : BStep :=
  let claim := setnx st.store k 1
  let st1 : BState := { st with store := claim.2, claimValues := st.claimValues ++ [1] }
  if claim.1 then
    if truthy timeout then
      let a := armLoop honored k (ttlOf timeout) st1.store st1.armIdx st1.retry_cnt
      let st2 : BState :=
        { st1 with store := a.store, retry_cnt := a.remaining, armIdx := st1.armIdx + a.calls }
      if st2.retry_cnt = 0 then
        .again { st2 with store := deleteOp st2.store k }
      else
        .yielded st2
    else
      .yielded st1
  else
    .again { st1 with sleptFor := st1.sleptFor + interval }

/-- Runs the outer loop of `central_lock_block` for at most `fuel` iterations:
`some st` when line 84 `yield True` is reached with loop state `st`, `none`
when the budget of iterations runs out before a yield.  The source loop has
no exit other than the yield, so `none` for every `fuel` is non-termination. -/
def central_lock_block (fuel : Nat) (k : Key) (timeout : Option Nat) (interval : Nat)
    (honored : Nat → Bool) (st : BState) : Option BState :=
  match fuel with
  | 0 => none
  | f + 1 =>
    match central_lock_block_iter k timeout interval honored st with
    | .yielded st2 => some st2
    | .again st2 => central_lock_block f k timeout interval honored st2

/-- Initial loop state of a `central_lock_block` call (lines 69-70). -/
def BState.init (s : Store) (retry_cnt : Nat) : BState :=
  ⟨s, retry_cnt, 0, 0, []⟩

/-- Teardown of a `central_lock_block` scope.  The only suspension point is
line 84, reached with `get_lock = True` (line 83), so on both exit paths —
normal completion (resume, `break` at line 85, fall into `finally`) and an
exception thrown into the generator at the yield — the `finally` (lines
90-92) runs with `get_lock = True` and deletes the key exactly once. -/
def central_lock_block_exit (k : Key) (st : BState) : ExitOut :=
  ⟨deleteOp st.store k, 1, true, false⟩

/-- Reading the key just written. -/
theorem setKey_self (s : Store) (k : Key) (e : Option Entry) : setKey s k e k = e := by
  simp [setKey]

/-- Overwriting the same key keeps only the second write. -/
theorem setKey_setKey (s : Store) (k : Key) (e1 e2 : Option Entry) :
    setKey (setKey s k e1) k e2 = setKey s k e2 := by
  funext k2
  by_cases h : k2 = k <;> simp [setKey, h]

/-- A `true` first yield happens only at the line-59 suspension point. -/
theorem susp_eq_yieldTrue_of_yielded (e : Enter) (h : e.yielded = true) :
    e.susp = Susp.yieldTrue := by
  unfold Enter.yielded at h
  cases hs : e.susp
  · rfl
  · rw [hs] at h; simp [Susp.yieldVal] at h
  · rw [hs] at h; simp [Susp.yieldVal] at h

/-- C3: every scope of either acquirer whose acquisition yields `true` issues
exactly one delete of its key at scope exit, on both exit paths (normal
completion of the protected body and an exception propagating out of it),
and the key is absent from the store afterwards. -/
theorem acquired_scope_deletes_once_key_gone :
    ∀ (s : Store) (k : Key) (timeout : Option Nat) (retry_cnt : Nat) (honored : Nat → Bool),
      ((central_lock s k timeout retry_cnt honored).yielded = true →
        (central_lock_exit_normal k (central_lock s k timeout retry_cnt honored)).exitDeletes = 1 ∧
        (central_lock_exit_normal k (central_lock s k timeout retry_cnt honored)).store k = none ∧
        (central_lock_exit_exn k (central_lock s k timeout retry_cnt honored)).exitDeletes = 1 ∧
        (central_lock_exit_exn k (central_lock s k timeout retry_cnt honored)).store k = none) ∧
      (∀ (fuel interval : Nat) (st0 stY : BState),
        central_lock_block fuel k timeout interval honored st0 = some stY →
          (central_lock_block_exit k stY).exitDeletes = 1 ∧
          (central_lock_block_exit k stY).store k = none) := by
  intro s k timeout retry_cnt honored
  constructor
  · intro h
    have hs := susp_eq_yieldTrue_of_yielded _ h
    simp [central_lock_exit_normal, central_lock_exit_exn, hs, deleteOp, setKey]
  · intro fuel interval st0 stY _
    simp [central_lock_block_exit, deleteOp, setKey]

/-- Witness for C3 at key "job:42": a fresh non-blocking acquire with no lease
yields `true`, and a one-iteration blocking acquire reaches its yield; both
exits delete exactly once and leave the key absent. -/
theorem acquired_scope_deletes_once_key_gone_witness :
    ((central_lock_exit_normal "job:42" (central_lock emptyStore "job:42" none 3 (fun _ => false))).exitDeletes = 1 ∧
     (central_lock_exit_normal "job:42" (central_lock emptyStore "job:42" none 3 (fun _ => false))).store "job:42" = none ∧
     (central_lock_exit_exn "job:42" (central_lock emptyStore "job:42" none 3 (fun _ => false))).exitDeletes = 1 ∧
     (central_lock_exit_exn "job:42" (central_lock emptyStore "job:42" none 3 (fun _ => false))).store "job:42" = none) ∧
    ((central_lock_block_exit "job:42"
        ⟨setKey emptyStore "job:42" (some ⟨1, none⟩), 3, 0, 0, [1]⟩).exitDeletes = 1 ∧
     (central_lock_block_exit "job:42"
        ⟨setKey emptyStore "job:42" (some ⟨1, none⟩), 3, 0, 0, [1]⟩).store "job:42" = none) :=
  ⟨(acquired_scope_deletes_once_key_gone emptyStore "job:42" none 3 (fun _ => false)).1 rfl,
   (acquired_scope_deletes_once_key_gone emptyStore "job:42" none 3 (fun _ => false)).2
     1 1 (BState.init emptyStore 3)
     ⟨setKey emptyStore "job:42" (some ⟨1, none⟩), 3, 0, 0, [1]⟩ rfl⟩

/-- C4: when the key is already present, `central_lock` yields `false`
immediately, makes no expire call and no delete (neither before the yield nor
at either scope exit), and leaves the whole store untouched. -/
theorem contention_yields_false_store_untouched :
    ∀ (s : Store) (k : Key) (timeout : Option Nat) (retry_cnt : Nat) (honored : Nat → Bool)
      (e : Entry), s k = some e →
      (central_lock s k timeout retry_cnt honored).yielded = false ∧
      (central_lock s k timeout retry_cnt honored).expireCalls = 0 ∧
      (central_lock s k timeout retry_cnt honored).preDeletes = 0 ∧
      (central_lock s k timeout retry_cnt honored).store = s ∧
      (central_lock_exit_normal k (central_lock s k timeout retry_cnt honored)).exitDeletes = 0 ∧
      (central_lock_exit_normal k (central_lock s k timeout retry_cnt honored)).store = s ∧
      (central_lock_exit_exn k (central_lock s k timeout retry_cnt honored)).exitDeletes = 0 ∧
      (central_lock_exit_exn k (central_lock s k timeout retry_cnt honored)).store = s := by
  intro s k timeout retry_cnt honored e h
  have hcl : central_lock s k timeout retry_cnt honored = ⟨.yieldFalseContended, s, 1, 0, 0⟩ := by
    simp [central_lock, setnx, h]
  simp [hcl, Enter.yielded, Susp.yieldVal, central_lock_exit_normal, central_lock_exit_exn]

/-- Witness for C4: a store holding "job:42" makes the acquire yield `false`
with nothing mutated. -/
theorem contention_yields_false_store_untouched_witness :
    (central_lock (setKey emptyStore "job:42" (some ⟨1, none⟩)) "job:42" (some 5) 3
        (fun _ => true)).yielded = false ∧
    (central_lock (setKey emptyStore "job:42" (some ⟨1, none⟩)) "job:42" (some 5) 3
        (fun _ => true)).expireCalls = 0 ∧
    (central_lock (setKey emptyStore "job:42" (some ⟨1, none⟩)) "job:42" (some 5) 3
        (fun _ => true)).preDeletes = 0 ∧
    (central_lock (setKey emptyStore "job:42" (some ⟨1, none⟩)) "job:42" (some 5) 3
        (fun _ => true)).store = setKey emptyStore "job:42" (some ⟨1, none⟩) ∧
    (central_lock_exit_normal "job:42" (central_lock (setKey emptyStore "job:42" (some ⟨1, none⟩))
        "job:42" (some 5) 3 (fun _ => true))).exitDeletes = 0 ∧
    (central_lock_exit_normal "job:42" (central_lock (setKey emptyStore "job:42" (some ⟨1, none⟩))
        "job:42" (some 5) 3 (fun _ => true))).store = setKey emptyStore "job:42" (some ⟨1, none⟩) ∧
    (central_lock_exit_exn "job:42" (central_lock (setKey emptyStore "job:42" (some ⟨1, none⟩))
        "job:42" (some 5) 3 (fun _ => true))).exitDeletes = 0 ∧
    (central_lock_exit_exn "job:42" (central_lock (setKey emptyStore "job:42" (some ⟨1, none⟩))
        "job:42" (some 5) 3 (fun _ => true))).store = setKey emptyStore "job:42" (some ⟨1, none⟩) :=
  contention_yields_false_store_untouched (setKey emptyStore "job:42" (some ⟨1, none⟩))
    "job:42" (some 5) 3 (fun _ => true) ⟨1, none⟩ (by simp [setKey])

/-- C5: key absent, a lease requested and `retry_cnt = 0` against a store
whose expiry-arm always fails: the acquire yields `false` and the key is
absent after the scope exits, on both exit paths. -/
theorem zero_retry_lease_false_no_orphan :
    ∀ (s : Store) (k : Key) (t : Nat) (honored : Nat → Bool),
      s k = none → (∀ i, honored i = false) →
      (central_lock s k (some (t + 1)) 0 honored).yielded = false ∧
      (central_lock_exit_normal k (central_lock s k (some (t + 1)) 0 honored)).store k = none ∧
      (central_lock_exit_exn k (central_lock s k (some (t + 1)) 0 honored)).store k = none := by
  intro s k t honored h _
  have hcl : central_lock s k (some (t + 1)) 0 honored
      = ⟨.yieldFalseExhausted, deleteOp (setKey s k (some ⟨1, none⟩)) k, 1, 0, 1⟩ := by
    simp [central_lock, setnx, h, truthy, armLoop]
  simp [hcl, Enter.yielded, Susp.yieldVal, central_lock_exit_normal, central_lock_exit_exn,
    deleteOp, setKey]

/-- Witness for C5 at key "job:42" with a 5-second lease. -/
theorem zero_retry_lease_false_no_orphan_witness :
    (central_lock emptyStore "job:42" (some 5) 0 (fun _ => false)).yielded = false ∧
    (central_lock_exit_normal "job:42"
        (central_lock emptyStore "job:42" (some 5) 0 (fun _ => false))).store "job:42" = none ∧
    (central_lock_exit_exn "job:42"
        (central_lock emptyStore "job:42" (some 5) 0 (fun _ => false))).store "job:42" = none :=
  zero_retry_lease_false_no_orphan emptyStore "job:42" 4 (fun _ => false) rfl (fun _ => rfl)

/-- C6: key absent, 5-second lease, `retry_cnt = 3`, expiry-arm failing on the
first two attempts and succeeding on the third: the acquire yields `true`
after exactly three expire calls and the key is present with the lease armed
while the protected body runs. -/
theorem lease_armed_on_third_attempt :
    ∀ (s : Store) (k : Key) (honored : Nat → Bool),
      s k = none → honored 0 = false → honored 1 = false → honored 2 = true →
      (central_lock s k (some 5) 3 honored).yielded = true ∧
      (central_lock s k (some 5) 3 honored).store k = some ⟨1, some 5⟩ ∧
      (central_lock s k (some 5) 3 honored).expireCalls = 3 := by
  intro s k honored h h0 h1 h2
  have hcl : central_lock s k (some 5) 3 honored
      = ⟨.yieldTrue, setKey s k (some ⟨1, some 5⟩), 1, 3, 0⟩ := by
    simp [central_lock, setnx, h, truthy, ttlOf, armLoop, expireOp, h0, h1, h2, setKey_self,
      setKey_setKey]
  simp [hcl, Enter.yielded, Susp.yieldVal, setKey_self]

/-- Witness for C6 at key "job:42" with the fail-fail-succeed oracle. -/
theorem lease_armed_on_third_attempt_witness :
    (central_lock emptyStore "job:42" (some 5) 3 (fun i => decide (1 < i))).yielded = true ∧
    (central_lock emptyStore "job:42" (some 5) 3 (fun i => decide (1 < i))).store "job:42"
      = some ⟨1, some 5⟩ ∧
    (central_lock emptyStore "job:42" (some 5) 3 (fun i => decide (1 < i))).expireCalls = 3 :=
  lease_armed_on_third_attempt emptyStore "job:42" (fun i => decide (1 < i))
    rfl rfl rfl rfl

/-- C7: two sequential non-blocking acquires of an initially absent key with
no lease: the first yields `true`, and after its normal scope exit the second
acquire on the resulting store also yields `true`. -/
theorem sequential_reacquire_succeeds :
    ∀ (s : Store) (k : Key) (honored : Nat → Bool),
      s k = none →
      (central_lock s k none 3 honored).yielded = true ∧
      (central_lock
        (central_lock_exit_normal k (central_lock s k none 3 honored)).store
        k none 3 honored).yielded = true := by
  intro s k honored h
  have hcl : central_lock s k none 3 honored
      = ⟨.yieldTrue, setKey s k (some ⟨1, none⟩), 1, 0, 0⟩ := by
    simp [central_lock, setnx, h, truthy]
  constructor
  · simp [hcl, Enter.yielded, Susp.yieldVal]
  · set s2 := (central_lock_exit_normal k (central_lock s k none 3 honored)).store with hs2
    have h2 : s2 k = none := by
      rw [hs2, hcl]
      simp [central_lock_exit_normal, deleteOp, setKey_self]
    simp [central_lock, setnx, h2, truthy, Enter.yielded, Susp.yieldVal]

/-- Witness for C7 at key "job:42". -/
theorem sequential_reacquire_succeeds_witness :
    (central_lock emptyStore "job:42" none 3 (fun _ => false)).yielded = true ∧
    (central_lock
      (central_lock_exit_normal "job:42"
        (central_lock emptyStore "job:42" none 3 (fun _ => false))).store
      "job:42" none 3 (fun _ => false)).yielded = true :=
  sequential_reacquire_succeeds emptyStore "job:42" (fun _ => false) rfl

/-- C10: both acquirers always pass the constant `1` as the claim-marker value
to `setnx`, whatever the store, key, lease parameters or loop state: the
non-blocking acquire records claim value `1`, and every iteration of the
blocking loop appends exactly one claim value, `1`. -/
theorem claim_marker_is_constant_one :
    ∀ (s : Store) (k : Key) (timeout : Option Nat) (retry_cnt : Nat) (honored : Nat → Bool)
      (interval : Nat) (st : BState),
      (central_lock s k timeout retry_cnt honored).claimValue = 1 ∧
      (central_lock_block_iter k timeout interval honored st).st.claimValues
        = st.claimValues ++ [1] := by
  intro s k timeout retry_cnt honored interval st
  constructor
  · unfold central_lock
    dsimp only
    split
    · split
      · split <;> rfl
      · rfl
    · rfl
  · unfold central_lock_block_iter
    dsimp only
    split
    · split
      · split <;> rfl
      · rfl
    · rfl

/-- C1 (refutation of the spec's exhausted-retry branch): with the key
initially absent, a 5-second lease, `retry_cnt = 1` and an expiry-arm that
always fails, the claim is deleted and the first yield is `false`, but on the
normal scope exit the generator resumes past the line-57 `yield False`, runs
line 58 (`get_lock = True`) and yields a second time, so the with-statement
raises `RuntimeError` and the `finally` issues one more delete of the key —
the held flag IS set and a further delete IS performed, contrary to the
claim. -/
theorem exhausted_retry_sets_held_and_deletes_again :
    (central_lock emptyStore "job:42" (some 5) 1 (fun _ => false)).yielded = false ∧
    (central_lock emptyStore "job:42" (some 5) 1 (fun _ => false)).preDeletes = 1 ∧
    (central_lock_exit_normal "job:42"
      (central_lock emptyStore "job:42" (some 5) 1 (fun _ => false))).heldAtFinally = true ∧
    (central_lock_exit_normal "job:42"
      (central_lock emptyStore "job:42" (some 5) 1 (fun _ => false))).exitDeletes = 1 ∧
    (central_lock_exit_normal "job:42"
      (central_lock emptyStore "job:42" (some 5) 1 (fun _ => false))).didNotStop = true :=
  ⟨rfl, rfl, rfl, rfl, rfl⟩

/-- C8 (refutation): in the exhausted-retry branch the `central_lock`
generator does not end cleanly after its single `false` yield — on the
normal-exit resume it yields again, so `contextlib` raises
`RuntimeError ("generator didn't stop")`. -/
theorem exhausted_retry_branch_double_yield :
    (central_lock_exit_normal "k"
      (central_lock emptyStore "k" (some 5) 2 (fun _ => false))).didNotStop = true :=
  rfl

/-- After a lease-arming exhaustion the blocking loop is stuck: with a truthy
lease, a zero `retry_cnt` carried over from the previous iteration and the
key absent, an iteration re-claims the key, makes no expire attempt (the
`while retry_cnt:` guard is already false), sees `retry_cnt == 0`, deletes
the claim and continues — back to a state of the same shape. -/
theorem block_iter_stuck (k : Key) (timeout : Option Nat) (interval : Nat)
    (honored : Nat → Bool) (st : BState) (htmo : truthy timeout = true)
    (h1 : st.store k = none) (h2 : st.retry_cnt = 0) :
    central_lock_block_iter k timeout interval honored st
      = .again ⟨deleteOp (setKey st.store k (some ⟨1, none⟩)) k, 0, st.armIdx,
          st.sleptFor, st.claimValues ++ [1]⟩ := by
  simp [central_lock_block_iter, setnx, h1, htmo, h2, armLoop]

/-- A stuck state never reaches the yield, whatever the iteration budget. -/
theorem block_stuck_forever (k : Key) (timeout : Option Nat) (interval : Nat)
    (honored : Nat → Bool) (htmo : truthy timeout = true) :
    ∀ (fuel : Nat) (st : BState), st.store k = none → st.retry_cnt = 0 →
      central_lock_block fuel k timeout interval honored st = none := by
  intro fuel
  induction fuel with
  | zero => intro st _ _; rfl
  | succ f ih =>
    intro st h1 h2
    rw [central_lock_block, block_iter_stuck k timeout interval honored st htmo h1 h2]
    exact ih _ (by simp [deleteOp, setKey_self]) rfl

/-- C2 (refutation of termination): key initially absent, a 1-second lease,
`retry_cnt = 1`, expiry-arm responses failing on the very first call and
succeeding on every later one.  The claim always lands (the key is never
held by anyone else), and after each fresh claim the store would honour an
expiry request within the budget of one attempt — yet the loop never reaches
its yield, for any number of iterations: the first iteration exhausts
`retry_cnt`, which is never reset, so every later iteration makes zero
expire attempts, deletes its own claim and continues forever. -/
theorem block_lease_exhaustion_loops_forever :
    ∀ fuel : Nat,
      central_lock_block fuel "job:42" (some 1) 1 (fun i => decide (0 < i))
        (BState.init emptyStore 1) = none := by
  intro fuel
  cases fuel with
  | zero => rfl
  | succ f =>
    have hiter : central_lock_block_iter "job:42" (some 1) 1 (fun i => decide (0 < i))
        (BState.init emptyStore 1)
        = .again ⟨deleteOp (setKey emptyStore "job:42" (some ⟨1, none⟩)) "job:42",
            0, 1, 0, [1]⟩ := by
      simp [central_lock_block_iter, BState.init, setnx, emptyStore, truthy, armLoop,
        expireOp, setKey_self, ttlOf]
    rw [central_lock_block, hiter]
    exact block_stuck_forever "job:42" (some 1) 1 (fun i => decide (0 < i)) rfl f _
      (by simp [deleteOp, setKey_self]) rfl

/-- C9 (refutation): one exhausted iteration hands the next iteration a
`retry_cnt` of `0`, not the full argument value `1` — and the next iteration
consumes no expire response at all (`armIdx` stays `1`), even though the
oracle would now honour the first attempt. -/
theorem block_budget_not_restored :
    central_lock_block_iter "job:42" (some 1) 1 (fun i => decide (0 < i))
        (BState.init emptyStore 1)
      = .again ⟨deleteOp (setKey emptyStore "job:42" (some ⟨1, none⟩)) "job:42", 0, 1, 0, [1]⟩ ∧
    (central_lock_block_iter "job:42" (some 1) 1 (fun i => decide (0 < i))
        ⟨deleteOp (setKey emptyStore "job:42" (some ⟨1, none⟩)) "job:42", 0, 1, 0, [1]⟩).st.retry_cnt
      = 0 ∧
    (central_lock_block_iter "job:42" (some 1) 1 (fun i => decide (0 < i))
        ⟨deleteOp (setKey emptyStore "job:42" (some ⟨1, none⟩)) "job:42", 0, 1, 0, [1]⟩).st.armIdx
      = 1 := by
  refine ⟨?_, ?_, ?_⟩
  · simp [central_lock_block_iter, BState.init, setnx, emptyStore, truthy, armLoop,
      expireOp, setKey_self, ttlOf]
  · rfl
  · rfl
